import Mathlib

/-!
Verification of the differential-rendering TUI engine (src/tui.ts).

Shallow embedding conventions:
* JavaScript numbers used as row/column indices and widths are embedded as
  `Int` (notably `cursorRow` can become `-1` after an empty first render,
  exactly as `newLines.length - 1` does in JavaScript).
* Terminal output is modelled as the list of `terminal.write` calls made
  during one operation; every branch of `doRender` performs at most one
  write of a single assembled buffer string.
* The fatal width-overflow `throw` in `doRender` is modelled by returning
  `none`: the exception is raised while the buffer is still being
  assembled, before `terminal.write(buffer)` and before the baseline
  fields are mutated, so nothing is written and no state changes.
* `visibleWidth` lives in src/utils.ts, which is not part of the sources;
  the engine is therefore parametrised over an arbitrary measurement
  function `vw : String → Int`.  Likewise the modal compositor is
  parametrised over `dimLine`, `padToWidth` and `overlayLineAt` from
  src/utils.ts.
-/

/-- Embedding of the `Component` interface: only `render` is relevant to the
claims under verification (widths are `Int`, mirroring JS numbers). -/
structure Component where
  render : Int → List String

/-- Embedding of `ModalOptions` (tui.ts lines 40-52): both fields optional. -/
structure ModalOptions where
  width : Option Int := none
  dimBackground : Option Bool := none

/-- Embedding of the `modalState` record (tui.ts lines 104-108). -/
structure ModalState where
  component : Component
  options : ModalOptions
  previousFocus : Option Component

/-- The orchestrator state of the `TUI` class (tui.ts lines 93-108): the
previous-frame baseline, focus, the render-requested flag and modal state. -/
structure TUI where
  previousLines : List String := []
  previousWidth : Int := 0
  cursorRow : Int := 0
  focusedComponent : Option Component := none
  renderRequested : Bool := false
  modalState : Option ModalState := none

/-- `setFocus` (tui.ts lines 164-166). -/
def setFocus (s : TUI) (component : Option Component) : TUI :=
  { s with focusedComponent := component }

/-- `requestRender` (tui.ts lines 207-214): sets the coalescing flag; the
deferred `doRender` call happens on the next event-loop tick and is modelled
separately. -/
def requestRender (s : TUI) : TUI :=
  { s with renderRequested := true }

/-- `showModal` (tui.ts lines 122-133): records the modal with resolved
options (`\x7b dimBackground: true, ...options \x7d` keeps an explicitly present
`dimBackground` and defaults an absent one to `true`), records the previously
focused component, transfers focus to the modal and requests a render. -/
def showModal (s : TUI) (component : Component) (options : ModalOptions) : TUI :=
  let s1 : TUI := { s with
    modalState := some {
      component := component
      options := { width := options.width, dimBackground := some (options.dimBackground.getD true) }
      previousFocus := s.focusedComponent } }
  requestRender (setFocus s1 (some component))

/-- `hideModal` (tui.ts lines 138-148): no-op without a modal; otherwise
clears the modal state and restores the recorded focus only when it was
non-null (`if (previousFocus)`), then requests a render. -/
def hideModal (s : TUI) : TUI :=
  match s.modalState with
  | none => s
  | some ms =>
    let s1 : TUI := { s with modalState := none }
    let s2 : TUI := match ms.previousFocus with
      | some c => setFocus s1 (some c)
      | none => s1
    requestRender s2

/-- `fullRefresh` (tui.ts lines 193-200): resets the baseline fields, writes
the clear-scrollback/clear-screen/home sequence and requests a render.
Returned pair: (new state, the single string written to the terminal). -/
def fullRefresh (s : TUI) : TUI × String :=
  ({ s with previousLines := [], previousWidth := 0, cursorRow := 0, renderRequested := true },
   "\x1b[3J\x1b[2J\x1b[H")

/-- Executable check that one character list starts with another (used to
embed JavaScript `String.prototype.includes`). -/
def hasPrefixChars : List Char → List Char → Bool
  | [], _ => true
  | _ :: _, [] => false
  | a :: pat, b :: s => a == b && hasPrefixChars pat s

/-- Executable contiguous-substring check on character lists (embedding of
JavaScript `String.prototype.includes`). -/
def hasInfixChars (pat : List Char) : List Char → Bool
  | [] => pat.isEmpty
  | b :: s => hasPrefixChars pat (b :: s) || hasInfixChars pat s

/-- JavaScript `line.includes(pat)`. -/
def strIncludes (line pat : String) : Bool :=
  hasInfixChars pat.toList line.toList

/-- `containsImage` (tui.ts lines 279-281): does the line embed a Kitty or
iTerm2 image escape sequence. -/
def containsImage (line : String) : Bool :=
  strIncludes line "\x1b_G" || strIncludes line "\x1b]1337;File="

/-- Reading line `i` of a frame, with a missing line treated as empty
(tui.ts lines 390-391). -/
def lineAt (ls : List String) (i : Nat) : String := ls.getD i ""

/-- The first-changed-line scan (tui.ts lines 386-398): smallest index where
the old and new frames differ, comparing up to the longer length with missing
lines read as empty; `-1` when no line differs. -/
def firstChanged (old new : List String) : Int :=
  match (List.range (max old.length new.length)).find?
      (fun i => lineAt old i != lineAt new i) with
  | some i => (i : Int)
  | none => -1

/-- Frame lines joined by hard line breaks, as emitted by the
`if (i > 0) buffer += "\r\n"` loops of `doRender`. -/
def joinLines (lines : List String) : String := String.intercalate "\r\n" lines

/-- The buffer written by the first-render branch (tui.ts lines 355-368):
synchronized-output markers around the whole frame, with no clearing codes. -/
def firstRenderBuffer (lines : List String) : String :=
  "\x1b[?2026h" ++ joinLines lines ++ "\x1b[?2026l"

/-- The buffer written by the three full-reset branches (tui.ts lines
370-384, 410-424): clear scrollback, clear screen, home, then the whole new
frame, inside synchronized-output markers. -/
def fullResetBuffer (lines : List String) : String :=
  "\x1b[?2026h" ++ "\x1b[3J\x1b[2J\x1b[H" ++ joinLines lines ++ "\x1b[?2026l"

/-- The per-line rewrite loop of the incremental branch (tui.ts lines
442-464), processing `newLines.drop first` with `i` the absolute index of the
head: each line is preceded by `\r\n` (except the first) and a clear-line
code; a non-image line whose visible width exceeds the terminal width throws,
modelled as `none`. -/
def renderFrom (vw : String → Int) (width : Int) (first : Nat) :
    Nat → List String → Option String
  | _, [] => some ""
  | i, line :: rest =>
    let lead := (if first < i then "\r\n" else "") ++ "\x1b[2K"
    if containsImage line = false ∧ vw line > width then none
    else
      match renderFrom vw width first (i + 1) rest with
      | none => none
      | some tail => some (lead ++ line ++ tail)

/-- The baseline commit performed at the end of every writing branch of
`doRender` (tui.ts lines 363-366, 380-382, 420-422, 482-485). -/
def commitState (s : TUI) (newLines : List String) (width : Int) : TUI :=
  { s with
    cursorRow := (newLines.length : Int) - 1
    previousLines := newLines
    previousWidth := width }

/-- `doRender` from the point where the new frame has been computed
(tui.ts lines 348-486).  The frame computation itself (`this.render(width)`
plus `compositeModal`, lines 336-346) is factored out as the `newLines`
argument; `compositeModal` is embedded separately below.  The result is
`none` when the pass throws on the fatal width check (nothing written, no
state change), otherwise `some (writes, s')` with `writes` the list of
`terminal.write` calls (empty for the no-change branch). -/
def doRenderFrame (vw : String → Int) (s : TUI) (width height : Int)
    (newLines : List String) : Option (List String × TUI) :=
  let widthChanged := s.previousWidth ≠ 0 ∧ s.previousWidth ≠ width
  let lineCountChanged :=
    s.previousLines.length ≠ 0 ∧ s.previousLines.length ≠ newLines.length
  if s.previousLines.length = 0 then
    some ([firstRenderBuffer newLines], commitState s newLines width)
  else if widthChanged ∨ lineCountChanged then
    some ([fullResetBuffer newLines], commitState s newLines width)
  else
    let fc := firstChanged s.previousLines newLines
    if fc = -1 then
      some ([], s)
    else if fc < s.cursorRow - height + 1 then
      some ([fullResetBuffer newLines], commitState s newLines width)
    else
      let fcN := fc.toNat
      let lineDiff := fc - s.cursorRow
      let moveSeq :=
        if 0 < lineDiff then "\x1b[" ++ toString lineDiff ++ "B"
        else if lineDiff < 0 then "\x1b[" ++ toString (-lineDiff) ++ "A"
        else ""
      match renderFrom vw width fcN fcN (newLines.drop fcN) with
      | none => none
      | some body =>
        let extraLines := s.previousLines.length - newLines.length
        let shrink :=
          if newLines.length < s.previousLines.length then
            String.join (List.replicate extraLines "\r\n\x1b[2K") ++
              "\x1b[" ++ toString (extraLines : Int) ++ "A"
          else ""
        some (["\x1b[?2026h" ++ moveSeq ++ "\r" ++ body ++ shrink ++ "\x1b[?2026l"],
              commitState s newLines width)

example : doRenderFrame (fun _ => 0) {} 80 24 ["hi"] =
    some (["\x1b[?2026hhi\x1b[?2026l"],
      { previousLines := ["hi"], previousWidth := 80, cursorRow := 0 }) := rfl

example : doRenderFrame (fun _ => 0)
    { previousLines := ["a", "b", "c"], previousWidth := 80, cursorRow := 2 }
    80 24 ["a", "b", "X"] =
    some (["\x1b[?2026h\r\x1b[2KX\x1b[?2026l"],
      { previousLines := ["a", "b", "X"], previousWidth := 80, cursorRow := 2 }) := rfl

/-- The background-padding loop of `compositeModal` (tui.ts lines 295-298):
append rows of `terminalWidth` spaces until the background reaches the
terminal height. -/
def padBackground (background : List String) (terminalWidth terminalHeight : Int) : List String :=
  background ++
    List.replicate (terminalHeight.toNat - background.length)
      (String.mk (List.replicate terminalWidth.toNat ' '))

/-- The optional background dimming of `compositeModal` (tui.ts lines
301-303): dim every padded background line unless `dimBackground` is
explicitly `false`; parametrised over `dimLine` from src/utils.ts. -/
def dimmedBackground (dim : String → String) (dimBackground : Option Bool)
    (background : List String) (terminalWidth terminalHeight : Int) : List String :=
  if dimBackground ≠ some false then
    (padBackground background terminalWidth terminalHeight).map dim
  else
    padBackground background terminalWidth terminalHeight

/-- One iteration of the compositing loop of `compositeModal` (tui.ts lines
321-331): overwrite result row `startRow + i` (when it falls inside
`[0, terminalHeight)`) with the overlay of modal line `i` onto the dimmed
background row; parametrised over `overlayLineAt` from src/utils.ts. -/
def overlayStep (over : String → String → Int → Int → String)
    (dimmedBg paddedModalLines : List String)
    (startRow startCol terminalWidth terminalHeight : Int)
    (res : List String) (i : Nat) : List String :=
  let row := startRow + (i : Int)
  if 0 ≤ row ∧ row < terminalHeight then
    res.set row.toNat
      (over (dimmedBg.getD row.toNat "") (paddedModalLines.getD i "")
        startCol terminalWidth)
  else res

/-- The compositing loop of `compositeModal` (tui.ts lines 320-331):
`overlayStep` for each modal line index in order, starting from the dimmed
background. -/
def overlayAll (over : String → String → Int → Int → String)
    (dimmedBg paddedModalLines : List String)
    (startRow startCol terminalWidth terminalHeight : Int) : List String :=
  (List.range paddedModalLines.length).foldl
    (overlayStep over dimmedBg paddedModalLines startRow startCol terminalWidth terminalHeight)
    dimmedBg

/-- `compositeModal` (tui.ts lines 287-334): pad and optionally dim the
background, compute modal width (`options.width`, defaulting to
`min(60, terminalWidth - 10)`), render and pad the modal lines, compute the
clamped centered anchor with floor division, and overlay.  Parametrised over
`dimLine`, `padToWidth` and `overlayLineAt` from src/utils.ts. -/
def compositeModal (dim : String → String) (pad : String → Int → String)
    (over : String → String → Int → Int → String) (s : TUI)
    (background : List String) (terminalWidth terminalHeight : Int) : List String :=
  match s.modalState with
  | none => background
  | some ms =>
    let dimmedBg :=
      dimmedBackground dim ms.options.dimBackground background terminalWidth terminalHeight
    let modalWidth := ms.options.width.getD (min 60 (terminalWidth - 10))
    let modalLines := ms.component.render modalWidth
    let paddedModalLines := modalLines.map (fun line => pad line modalWidth)
    let modalHeight := (paddedModalLines.length : Int)
    let startRow := max 0 (Int.fdiv (terminalHeight - modalHeight) 2)
    let startCol := max 0 (Int.fdiv (terminalWidth - modalWidth) 2)
    overlayAll over dimmedBg paddedModalLines startRow startCol terminalWidth terminalHeight

/-- A fresh orchestrator: the field initializers of the `TUI` class
(tui.ts lines 95-108). -/
def initTUI : TUI := {}

/-- Empty modal options (`showModal(component)` with the `{}` default). -/
def optsNone : ModalOptions := {}

/-- A measurement function under which every line fits. -/
def vwZero : String → Int := fun _ => 0

/-- A measurement function reporting width 81 for every line. -/
def vwAll81 : String → Int := fun _ => 81

/-- A component rendering no lines. -/
def compEmpty : Component := { render := fun _ => [] }

/-- A committed baseline of five lines with the cursor on the last one. -/
def shrinkPrev : TUI :=
  { previousLines := ["a", "b", "c", "d", "e"], previousWidth := 80, cursorRow := 4 }

/-- A committed one-line baseline satisfying the cursor-row invariant. -/
def invS : TUI := { previousLines := ["a"], previousWidth := 80, cursorRow := 0 }

/-- A concrete dimming function marking dimmed lines. -/
def dimMark : String → String := fun line => "D:" ++ line

/-- A concrete padding function marking the requested width. -/
def padMark : String → Int → String := fun line wdt => line ++ "#" ++ toString wdt

/-- A concrete overlay function recording its column and width arguments. -/
def overMark : String → String → Int → Int → String :=
  fun bgLine modalLine c wdt =>
    bgLine ++ "<" ++ modalLine ++ "@" ++ toString c ++ ";" ++ toString wdt ++ ">"

/-- A modal component rendering three lines. -/
def modalComp : Component := { render := fun _ => ["mmm", "nnn", "ooo"] }

/-- An orchestrator with an active modal of content width 10. -/
def modalTUI : TUI :=
  { modalState := some {
      component := modalComp
      options := { width := some 10, dimBackground := some true }
      previousFocus := none } }

theorem firstChanged_self (ls : List String) : firstChanged ls ls = -1 := by
  unfold firstChanged
  have hnone : (List.range (max ls.length ls.length)).find?
      (fun i => lineAt ls i != lineAt ls i) = none := by
    rw [List.find?_eq_none]
    intro i _
    simp [bne_self_eq_false]
  rw [hnone]

/-- C2, counterexample: starting from a fresh orchestrator whose focus is
`null`, opening and closing a modal does not return focus to `null` — the
modal component keeps it (`hideModal` only restores a non-null recorded
focus, tui.ts line 144). -/
theorem c2_counterexample :
    initTUI.focusedComponent = none ∧
    (hideModal (showModal initTUI compEmpty optsNone)).focusedComponent = some compEmpty ∧
    (hideModal (showModal initTUI compEmpty optsNone)).focusedComponent ≠
      initTUI.focusedComponent :=
  ⟨rfl, rfl, fun h => Option.noConfusion h⟩

/-- C2, amended: after `showModal(m)` then `hideModal()`, focus is the
component that held it before `showModal` whenever that component was
non-null; when it was null, the modal component `m` itself keeps focus. -/
theorem c2_focus_after_hide (s : TUI) (m : Component) (opts : ModalOptions) :
    (hideModal (showModal s m opts)).focusedComponent =
      some (s.focusedComponent.getD m) := by
  cases h : s.focusedComponent <;>
    simp [showModal, hideModal, setFocus, requestRender, h]

/-- C10: opening a second modal while one is active records the first modal
component (the focus holder at that moment) as the new previous focus, so
`hideModal` afterwards focuses the replaced modal component. -/
theorem c10_nested_modal_focus (s : TUI) (m1 m2 : Component) (o1 o2 : ModalOptions) :
    ((showModal (showModal s m1 o1) m2 o2).modalState.map
        (fun ms => ms.previousFocus)) = some (some m1) ∧
    (hideModal (showModal (showModal s m1 o1) m2 o2)).focusedComponent = some m1 :=
  ⟨rfl, rfl⟩

/-- C8: `fullRefresh` empties the baseline frame, zeroes the previous width
and cursor row, writes exactly the clear-scrollback/clear-screen/home
sequence, and leaves focus and modal state untouched. -/
theorem c8_fullRefresh_resets_baseline (s : TUI) :
    (fullRefresh s).1.previousLines = [] ∧
    (fullRefresh s).1.previousWidth = 0 ∧
    (fullRefresh s).1.cursorRow = 0 ∧
    (fullRefresh s).2 = "\x1b[3J\x1b[2J\x1b[H" ∧
    (fullRefresh s).1.focusedComponent = s.focusedComponent ∧
    (fullRefresh s).1.modalState = s.modalState :=
  ⟨rfl, rfl, rfl, rfl, rfl, rfl⟩

/-- C9: with an empty baseline every render pass takes the first-render
branch — for any width, height and new frame it writes exactly the
synchronized-output-wrapped frame (no clearing codes) and commits
`cursorRow = newLines.length - 1`; in particular a zero-line frame leaves the
baseline empty with `cursorRow = -1`, so the next pass is again a first
render. -/
theorem c9_empty_baseline_first_render (vw : String → Int) (s : TUI)
    (w h : Int) (newLines : List String) (hprev : s.previousLines = []) :
    doRenderFrame vw s w h newLines =
      some ([firstRenderBuffer newLines],
        { s with
          cursorRow := (newLines.length : Int) - 1
          previousLines := newLines
          previousWidth := w }) := by
  simp [doRenderFrame, commitState, hprev]

/-- C9 witness: a pass with empty baseline and an empty composited frame
commits `cursorRow = -1` and an empty baseline again. -/
theorem c9_witness :
    initTUI.previousLines = [] ∧
    doRenderFrame vwZero initTUI 80 24 [] =
      some ([firstRenderBuffer []],
        { initTUI with cursorRow := -1, previousLines := [], previousWidth := 80 }) :=
  ⟨rfl, c9_empty_baseline_first_render vwZero initTUI 80 24 [] rfl⟩

/-- C4: a pass over a non-empty baseline at the same width with an identical
frame writes nothing and leaves the state untouched, for every cursor row and
terminal height (the no-change check precedes the viewport check). -/
theorem c4_unchanged_frame_writes_nothing (vw : String → Int) (s : TUI)
    (h : Int) (hne : s.previousLines ≠ []) :
    doRenderFrame vw s s.previousWidth h s.previousLines = some ([], s) := by
  simp [doRenderFrame, firstChanged_self, List.length_eq_zero, hne]

/-- C4 witness: identical one-line frame at unchanged width, with
`cursorRow - height + 1 = -23 > -1` irrelevant. -/
theorem c4_witness :
    invS.previousLines ≠ [] ∧
    doRenderFrame vwZero invS invS.previousWidth 24 invS.previousLines =
      some ([], invS) :=
  ⟨by decide, c4_unchanged_frame_writes_nothing vwZero invS 24 (by decide)⟩

/-- C1, counterexample: shrinking a five-line baseline to a three-line frame
emits a full clear-and-redraw (the line-count-changed branch, tui.ts lines
352, 371-384), not a patch that clears the two orphaned lines in place: the
written buffer contains the clear-screen code `CSI 2J` and contains neither a
clear-line code `CSI 2K` nor the cursor-up walk `CSI 2A` that the claimed
patch shape would use (the in-place cleanup at tui.ts lines 466-474 is
unreachable, because the incremental branch requires equal line counts). -/
theorem c1_counterexample :
    doRenderFrame vwZero shrinkPrev 80 24 ["x", "y", "z"] =
      some ([fullResetBuffer ["x", "y", "z"]],
        { shrinkPrev with
          cursorRow := 2
          previousLines := ["x", "y", "z"]
          previousWidth := 80 }) ∧
    strIncludes (fullResetBuffer ["x", "y", "z"]) "\x1b[2J" = true ∧
    strIncludes (fullResetBuffer ["x", "y", "z"]) "\x1b[2K" = false ∧
    strIncludes (fullResetBuffer ["x", "y", "z"]) "\x1b[2A" = false :=
  ⟨rfl, by decide, by decide, by decide⟩

/-- C1, amended: whenever the previous frame is longer than the new one (and
a baseline exists), the pass takes the full-reset branch: it writes the
clear-scrollback/clear-screen/home sequence followed by the whole new frame,
and `cursorRow` becomes the new frame's last line index. -/
theorem c1_shrinking_frame_full_reset (vw : String → Int) (s : TUI)
    (w h : Int) (newLines : List String) (hne : s.previousLines ≠ [])
    (hshrink : newLines.length < s.previousLines.length) :
    doRenderFrame vw s w h newLines =
      some ([fullResetBuffer newLines],
        { s with
          cursorRow := (newLines.length : Int) - 1
          previousLines := newLines
          previousWidth := w }) := by
  have hlen0 : s.previousLines.length ≠ 0 := fun hh => hne (List.length_eq_zero.mp hh)
  have hlenne : s.previousLines.length ≠ newLines.length := (Nat.ne_of_gt hshrink)
  simp only [doRenderFrame, commitState]
  rw [if_neg hlen0, if_pos (Or.inr ⟨hlen0, hlenne⟩)]

/-- C1 witness: the five-line to three-line shrink of the claim. -/
theorem c1_witness :
    shrinkPrev.previousLines ≠ [] ∧
    (["x", "y", "z"] : List String).length < shrinkPrev.previousLines.length ∧
    doRenderFrame vwZero shrinkPrev 80 24 ["x", "y", "z"] =
      some ([fullResetBuffer ["x", "y", "z"]],
        { shrinkPrev with
          cursorRow := ((["x", "y", "z"] : List String).length : Int) - 1
          previousLines := ["x", "y", "z"]
          previousWidth := 80 }) :=
  ⟨by decide, by decide,
    c1_shrinking_frame_full_reset vwZero shrinkPrev 80 24 ["x", "y", "z"]
      (by decide) (by decide)⟩

/-- C5: with the cursor-row invariant in force, a change strictly above
`cursorRow - height + 1` makes the pass write exactly the full
clear-and-redraw patch and commit `cursorRow` to the new last line index
(when width or line count changed as well, the branch taken earlier emits the
very same patch). -/
theorem c5_viewport_boundary_reset (vw : String → Int) (s : TUI) (w h : Int)
    (newLines : List String) (hne : s.previousLines ≠ [])
    (hcur : s.cursorRow = (s.previousLines.length : Int) - 1)
    (hfc : firstChanged s.previousLines newLines ≠ -1)
    (hview : firstChanged s.previousLines newLines <
      ((s.previousLines.length : Int) - 1) - h + 1) :
    doRenderFrame vw s w h newLines =
      some ([fullResetBuffer newLines],
        { s with
          cursorRow := (newLines.length : Int) - 1
          previousLines := newLines
          previousWidth := w }) := by
  have hlen0 : s.previousLines.length ≠ 0 := fun hh => hne (List.length_eq_zero.mp hh)
  simp only [doRenderFrame, commitState]
  rw [if_neg hlen0]
  by_cases hwlc : (s.previousWidth ≠ 0 ∧ s.previousWidth ≠ w) ∨
      (s.previousLines.length ≠ 0 ∧ s.previousLines.length ≠ newLines.length)
  · rw [if_pos hwlc]
  · rw [if_neg hwlc, if_neg hfc, if_pos (by rw [hcur]; exact hview)]

/-- C5 witness: previous frame of length 5, height 3, cursor at row 4,
change at index 1 < (5 - 1) - 3 + 1 = 2: full clear-and-redraw. -/
theorem c5_witness :
    firstChanged shrinkPrev.previousLines ["a", "B", "c", "d", "e"] = 1 ∧
    shrinkPrev.cursorRow = (shrinkPrev.previousLines.length : Int) - 1 ∧
    doRenderFrame vwZero shrinkPrev 80 3 ["a", "B", "c", "d", "e"] =
      some ([fullResetBuffer ["a", "B", "c", "d", "e"]],
        { shrinkPrev with
          cursorRow := ((["a", "B", "c", "d", "e"] : List String).length : Int) - 1
          previousLines := ["a", "B", "c", "d", "e"]
          previousWidth := 80 }) :=
  ⟨by decide, by decide,
    c5_viewport_boundary_reset vwZero shrinkPrev 80 3 ["a", "B", "c", "d", "e"]
      (by decide) (by decide) (by decide) (by decide)⟩

/-- C6: the cursor-row invariant `cursorRow = previousFrame.length - 1` is
preserved by every non-aborting render pass — each committing branch
re-establishes it, and the write-free no-change branch leaves the state
untouched. -/
theorem c6_cursor_row_invariant (vw : String → Int) (s : TUI) (w h : Int)
    (newLines writes : List String) (s2 : TUI)
    (hrun : doRenderFrame vw s w h newLines = some (writes, s2))
    (hinv : s.cursorRow = (s.previousLines.length : Int) - 1) :
    s2.cursorRow = (s2.previousLines.length : Int) - 1 := by
  simp only [doRenderFrame] at hrun
  repeat' split at hrun
  all_goals simp only [Option.some.injEq, Prod.mk.injEq, reduceCtorEq] at hrun
  all_goals try (obtain ⟨-, rfl⟩ := hrun)
  all_goals first
    | exact hinv
    | simp [commitState]

/-- C6 witness: a no-change pass over a committed baseline preserves the
invariant. -/
theorem c6_witness :
    doRenderFrame vwZero invS 80 24 ["a"] = some ([], invS) ∧
    invS.cursorRow = (invS.previousLines.length : Int) - 1 :=
  ⟨rfl, c6_cursor_row_invariant vwZero invS 80 24 ["a"] [] invS rfl (by decide)⟩

theorem getD_drop_str (l : List String) (n k : Nat) :
    (l.drop n).getD k "" = l.getD (n + k) "" := by
  rw [List.getD_eq_getElem?_getD, List.getD_eq_getElem?_getD, List.getElem?_drop]

theorem renderFrom_none (vw : String → Int) (width : Int) (first : Nat)
    (l : List String) :
    ∀ (i k : Nat), k < l.length →
      containsImage (l.getD k "") = false → vw (l.getD k "") > width →
      renderFrom vw width first i l = none := by
  induction l with
  | nil =>
    intro i k hk _ _
    simp at hk
  | cons line rest ih =>
    intro i k hk himg hwide
    cases k with
    | zero =>
      simp only [List.getD_cons_zero] at himg hwide
      simp only [renderFrom]
      rw [if_pos ⟨himg, hwide⟩]
    | succ k2 =>
      simp only [renderFrom]
      by_cases hhead : containsImage line = false ∧ vw line > width
      · rw [if_pos hhead]
      · rw [if_neg hhead,
          ih (i + 1) k2 (by simpa using hk) (by simpa using himg) (by simpa using hwide)]

/-- C3, counterexample: on a first render there is no width check at all — a
pass whose only line measures 81 at render width 80 writes the frame and
commits it as the new baseline instead of aborting. -/
theorem c3_counterexample :
    containsImage "w" = false ∧
    vwAll81 "w" > 80 ∧
    doRenderFrame vwAll81 initTUI 80 24 ["w"] =
      some ([firstRenderBuffer ["w"]],
        { initTUI with cursorRow := 0, previousLines := ["w"], previousWidth := 80 }) :=
  ⟨by decide, by decide, rfl⟩

/-- C3, amended: the fatal width check lives only in the incremental-update
branch: when a baseline exists, width and line count are unchanged, some line
differs, the first change is not above the viewport, and some non-image line
at index `≥ firstChanged` has visible width exceeding the render width, the
pass throws (modelled as `none`) — the exception is raised before
`terminal.write` and before the baseline commit, so nothing is written and
`previousFrame`, `previousWidth` and `cursorRow` keep their prior values. -/
theorem c3_fatal_width_aborts (vw : String → Int) (s : TUI) (w h : Int)
    (newLines : List String) (hne : s.previousLines ≠ [])
    (hw : s.previousWidth = w)
    (hlen : s.previousLines.length = newLines.length)
    (hfc : firstChanged s.previousLines newLines ≠ -1)
    (hview : ¬ (firstChanged s.previousLines newLines < s.cursorRow - h + 1))
    (j : Nat) (hj1 : (firstChanged s.previousLines newLines).toNat ≤ j)
    (hj2 : j < newLines.length)
    (himg : containsImage (lineAt newLines j) = false)
    (hgt : vw (lineAt newLines j) > w) :
    doRenderFrame vw s w h newLines = none := by
  have hlen0 : s.previousLines.length ≠ 0 := fun hh => hne (List.length_eq_zero.mp hh)
  have hnwlc : ¬ ((s.previousWidth ≠ 0 ∧ s.previousWidth ≠ w) ∨
      (s.previousLines.length ≠ 0 ∧ s.previousLines.length ≠ newLines.length)) := by
    rintro (⟨-, h2⟩ | ⟨-, h2⟩)
    · exact h2 hw
    · exact h2 hlen
  simp only [doRenderFrame]
  rw [if_neg hlen0, if_neg hnwlc, if_neg hfc, if_neg hview]
  have hnone : renderFrom vw w (firstChanged s.previousLines newLines).toNat
      (firstChanged s.previousLines newLines).toNat
      (newLines.drop (firstChanged s.previousLines newLines).toNat) = none := by
    apply renderFrom_none vw w _ _ _ (j - (firstChanged s.previousLines newLines).toNat)
    · rw [List.length_drop]
      omega
    · rw [getD_drop_str, Nat.add_sub_cancel' hj1]
      exact himg
    · rw [getD_drop_str, Nat.add_sub_cancel' hj1]
      exact hgt
  rw [hnone]

/-- C3 witness: one-line baseline, differing one-line frame whose line
measures 81 at width 80: the pass aborts with nothing written. -/
theorem c3_witness :
    containsImage (lineAt ["b"] 0) = false ∧
    vwAll81 (lineAt ["b"] 0) > 80 ∧
    doRenderFrame vwAll81 invS 80 24 ["b"] = none :=
  ⟨by decide, by decide,
    c3_fatal_width_aborts vwAll81 invS 80 24 ["b"] (by decide) rfl (by decide)
      (by decide) (by decide) 0 (by decide) (by decide) (by decide) (by decide)⟩

theorem overlayStep_length (over : String → String → Int → Int → String)
    (dimmedBg pml : List String) (startRow startCol W H : Int)
    (res : List String) (i : Nat) :
    (overlayStep over dimmedBg pml startRow startCol W H res i).length = res.length := by
  unfold overlayStep
  dsimp only
  split
  · exact List.length_set res _ _
  · rfl

theorem overlayFold_length (over : String → String → Int → Int → String)
    (dimmedBg pml : List String) (startRow startCol W H : Int) (n : Nat) :
    ((List.range n).foldl
      (overlayStep over dimmedBg pml startRow startCol W H) dimmedBg).length =
      dimmedBg.length := by
  induction n with
  | zero => rfl
  | succ k ih =>
    rw [List.range_succ, List.foldl_append, List.foldl_cons, List.foldl_nil,
      overlayStep_length, ih]

theorem overlayStep_apply (over : String → String → Int → Int → String)
    (dimmedBg pml : List String) (startRow startCol W H : Int)
    (res : List String) (i : Nat) :
    overlayStep over dimmedBg pml startRow startCol W H res i =
      if 0 ≤ startRow + (i : Int) ∧ startRow + (i : Int) < H then
        res.set (startRow + (i : Int)).toNat
          (over (dimmedBg.getD (startRow + (i : Int)).toNat "") (pml.getD i "")
            startCol W)
      else res := rfl

theorem overlayFold_getD (over : String → String → Int → Int → String)
    (dimmedBg pml : List String) (startRow startCol W H : Int)
    (hsr : 0 ≤ startRow) (hH : H.toNat ≤ dimmedBg.length) :
    ∀ (n j : Nat), j < n → startRow + (j : Int) < H →
      ((List.range n).foldl
        (overlayStep over dimmedBg pml startRow startCol W H) dimmedBg).getD
          (startRow + (j : Int)).toNat "" =
        over (dimmedBg.getD (startRow + (j : Int)).toNat "") (pml.getD j "")
          startCol W := by
  intro n
  induction n with
  | zero =>
    intro j hj
    exact absurd hj (Nat.not_lt_zero j)
  | succ k ih =>
    intro j hj hrow
    rw [List.range_succ, List.foldl_append, List.foldl_cons, List.foldl_nil,
      overlayStep_apply]
    rcases Nat.lt_succ_iff_lt_or_eq.mp hj with hjk | hjeq
    · split
      · have hne : (startRow + (k : Int)).toNat ≠ (startRow + (j : Int)).toNat := by
          omega
        rw [List.getD_eq_getElem?_getD, List.getElem?_set_ne hne,
          ← List.getD_eq_getElem?_getD]
        exact ih j hjk hrow
      · exact ih j hjk hrow
    · subst hjeq
      rw [if_pos ⟨by omega, hrow⟩]
      have hlt : (startRow + (j : Int)).toNat <
          ((List.range j).foldl
            (overlayStep over dimmedBg pml startRow startCol W H) dimmedBg).length := by
        rw [overlayFold_length]
        omega
      rw [List.getD_eq_getElem?_getD, List.getElem?_set_self hlt, Option.getD_some]

theorem overlayAll_getD (over : String → String → Int → Int → String)
    (dimmedBg pml : List String) (startRow startCol W H : Int)
    (hsr : 0 ≤ startRow) (hH : H.toNat ≤ dimmedBg.length)
    (j : Nat) (hj : j < pml.length) (hrow : startRow + (j : Int) < H) :
    (overlayAll over dimmedBg pml startRow startCol W H).getD
        (startRow + (j : Int)).toNat "" =
      over (dimmedBg.getD (startRow + (j : Int)).toNat "") (pml.getD j "")
        startCol W :=
  overlayFold_getD over dimmedBg pml startRow startCol W H hsr hH pml.length j hj hrow

theorem dimmedBackground_length (dim : String → String) (o : Option Bool)
    (bg : List String) (W H : Int) :
    (dimmedBackground dim o bg W H).length = max bg.length H.toNat := by
  unfold dimmedBackground padBackground
  split <;> simp <;> omega

/-- C7: in every modal compositing pass the modal content width is
`options.width` when given and `min(60, terminalWidth - 10)` otherwise, and
modal line `i`, padded to that width, is overlaid onto the (padded, possibly
dimmed) background at row `max 0 (floor((H - modalHeight) / 2)) + i` and
column `max 0 (floor((W - modalWidth) / 2))` — the centered anchor clamped
below at 0. -/
theorem c7_modal_geometry (dim : String → String) (pad : String → Int → String)
    (over : String → String → Int → Int → String)
    (s : TUI) (ms : ModalState) (hms : s.modalState = some ms)
    (background : List String) (W H : Int)
    (mw : Int) (hmw : mw = ms.options.width.getD (min 60 (W - 10)))
    (i : Nat) (hi : i < (ms.component.render mw).length)
    (row col : Int)
    (hrow : row = max 0 (Int.fdiv (H - ((ms.component.render mw).length : Int)) 2)
      + (i : Int))
    (hcol : col = max 0 (Int.fdiv (W - mw) 2))
    (hrowH : row < H) :
    (compositeModal dim pad over s background W H).getD row.toNat "" =
      over ((dimmedBackground dim ms.options.dimBackground background W H).getD
          row.toNat "")
        (pad ((ms.component.render mw).getD i "") mw) col W := by
  subst hmw
  subst hrow
  subst hcol
  simp only [compositeModal, hms, List.length_map]
  rw [overlayAll_getD]
  · congr 1
    rw [List.getD_eq_getElem?_getD, List.getElem?_map, List.getElem?_eq_getElem hi,
      Option.map_some', Option.getD_some, List.getD_eq_getElem _ _ hi]
  · exact le_max_left 0 _
  · rw [dimmedBackground_length]
    omega
  · rw [List.length_map]
    exact hi
  · exact hrowH

/-- C7 witness: a three-line modal of content width 10 on a 40-by-10 terminal
is anchored at row `floor((10-3)/2) = 3` and column `floor((40-10)/2) = 15`:
the composited frame's row 3 is the overlay of the first modal line (padded
to width 10) at column 15. -/
theorem c7_witness :
    (compositeModal dimMark padMark overMark modalTUI [] 40 10).getD 3 "" =
      overMark ((dimmedBackground dimMark (some true) [] 40 10).getD 3 "")
        (padMark "mmm" 10) 15 40 :=
  c7_modal_geometry dimMark padMark overMark modalTUI
    { component := modalComp
      options := { width := some 10, dimBackground := some true }
      previousFocus := none }
    rfl [] 40 10 10 rfl 0 (by decide) 3 15 (by decide) (by decide) (by decide)
